import Mathlib

/-!
Verification of the chatform red-flag resolution front end.

The development shallowly embeds the stateful React hooks and components as
pure state-transition functions: each handler takes the component state it
closes over, the user input, a clock value for `new Date()`, and the outcome
of the (single) network call it issues, and returns the successor state
together with the request payload it sent (if any).
-/

namespace ChatForm

/-- Message author, from `ChatMessage.role` in `types/index.ts`. -/
inductive Role where
  | user
  | assistant
  deriving DecidableEq, Repr

/-- `ChatMessage` from `types/index.ts`; `Date` timestamps become an abstract
clock value. -/
structure ChatMessage where
  role : Role
  content : String
  timestamp : Nat
  deriving DecidableEq, Repr

/-- Opaque debug payload attached to a red flag (`debugInfo?: any`); the
values that occur are JSON objects, which are always truthy in JavaScript. -/
structure DebugInfo where
  payload : String
  deriving DecidableEq, Repr

/-- `RedFlag` from `types/index.ts`. -/
structure RedFlag where
  rule : String
  message : String
  severity : Option String
  affectedFields : List String
  debugInfo : Option DebugInfo
  deriving DecidableEq, Repr

/-- The `preScreening` sub-object of `ApplicationData`. -/
structure PreScreeningInfo where
  response : String
  explanation : String
  chatHistory : List ChatMessage
  deriving DecidableEq, Repr

/-- `ApplicationData` from `types/index.ts`. -/
structure ApplicationData where
  firstName : Option String
  lastName : Option String
  currentAddress : Option String
  employmentType : Option String
  jobTitle : Option String
  companyName : Option String
  companyAddress : Option String
  companyWebsite : Option String
  monthlyIncome : Option Int
  sourceOfFunds : Option String
  currentAssets : Option Int
  countryIncomeSources : Option String
  preScreening : Option PreScreeningInfo
  deriving DecidableEq, Repr

/-- The successful body of a `ChatMessageResponse` (`status = "success"`). -/
structure ChatMessageResponseOk where
  content : String
  timestamp : Nat
  deriving DecidableEq, Repr

/-- Outcome of one `fetch` round-trip as the handlers observe it: either a
successful response body, or any of the failures that land in the `catch`
block (network error, 30s timeout, non-ok HTTP status, `status = "error"`
body), carrying the error message. -/
inductive FetchResult where
  | success (r : ChatMessageResponseOk)
  | failure (errMsg : String)
  deriving DecidableEq, Repr

/-- Request payload of `POST /api/chat/message` (`ChatMessagePayload` in
`types/index.ts`), as built in `useChat.ts`. -/
structure ChatMessagePayload where
  message : String
  redFlag : RedFlag
  applicationData : ApplicationData
  conversationHistory : List ChatMessage
  deriving DecidableEq, Repr

/-- Whitespace as removed by JavaScript `String.prototype.trim` (the
whitespace characters that occur in practice). -/
def isJsWhitespace (c : Char) : Bool :=
  c = ' ' || c = '\t' || c = '\n' || c = '\r'

/-- JavaScript `String.prototype.trim`, used by every send guard: drops
leading and trailing whitespace. -/
def jsTrim (s : String) : String :=
  String.mk (((s.data.dropWhile isJsWhitespace).reverse.dropWhile
    isJsWhitespace).reverse)

/-- The state held by the `useChat` hook: `messages`, `isLoading`, `error`,
`isInitialized` (the refs mirror `messages` and `isInitialized`). -/
structure ChatState where
  messages : List ChatMessage
  isLoading : Bool
  error : Option String
  isInitialized : Bool
  deriving DecidableEq, Repr

/-- The hook's initial state, also what `reset()` restores. -/
def initialChatState : ChatState :=
  { messages := [], isLoading := false, error := none, isInitialized := false }

/-- The user `ChatMessage` built in `sendMessage` (`role: "user"`,
`timestamp: new Date()`). -/
def mkUserMessage (content : String) (now : Nat) : ChatMessage :=
  { role := Role.user, content := content, timestamp := now }

/-- The assistant `ChatMessage` built from a successful response
(`role: "assistant"`, `content: data.content`, `timestamp: data.timestamp`). -/
def mkAssistantMessage (r : ChatMessageResponseOk) : ChatMessage :=
  { role := Role.assistant, content := r.content, timestamp := r.timestamp }

/-- `initializeChat` from `useChat.ts`: no-op when already initialized;
otherwise posts an empty bootstrap message with empty history and, on
success, replaces the transcript by the single assistant reply and marks the
hook initialized; on failure only records the error (transcript and
initialization flag untouched). Returns the successor state and the payload
sent, if any. -/
def initializeChat (redFlag : RedFlag) (applicationData : ApplicationData)
    (st : ChatState) (outcome : FetchResult) :
    ChatState × Option ChatMessagePayload :=
  if st.isInitialized then (st, none)
  else
    let req : ChatMessagePayload :=
      { message := "", redFlag := redFlag, applicationData := applicationData,
        conversationHistory := [] }
    match outcome with
    | FetchResult.success r =>
        ({ st with messages := [mkAssistantMessage r], isInitialized := true,
                   isLoading := false, error := none }, some req)
    | FetchResult.failure e =>
        ({ st with error := some e, isLoading := false }, some req)

/-- The body of `sendMessage` from `useChat.ts`, as a function of the
closure environment it runs in: `st.isLoading` is the `isLoading` value the
closure *captured* (the line-98 guard reads the closed-over variable, not a
ref), while `st.messages` is read live through `messagesRef`. Guarded no-op
on blank input or when the captured flag is set; otherwise appends the user
message optimistically, posts `message` together with
`conversationHistory = [...currentMessages, newUserMessage]` (the ref still
holds the pre-append transcript), then on success appends the assistant
reply, and on failure records the error and removes the optimistic user
message (`prev.slice(0, -1)`). See `sendMessageDeployed` for the value the
captured flag actually has in the running program. -/
def sendMessage (redFlag : RedFlag) (applicationData : ApplicationData)
    (st : ChatState) (userMessage : String) (now : Nat)
    (outcome : FetchResult) : ChatState × Option ChatMessagePayload :=
  if (jsTrim userMessage == "") || st.isLoading then (st, none)
  else
    let newUserMessage := mkUserMessage userMessage now
    let optimistic := st.messages ++ [newUserMessage]
    let req : ChatMessagePayload :=
      { message := userMessage, redFlag := redFlag,
        applicationData := applicationData,
        conversationHistory := st.messages ++ [newUserMessage] }
    match outcome with
    | FetchResult.success r =>
        ({ st with messages := optimistic ++ [mkAssistantMessage r],
                   isLoading := false, error := none }, some req)
    | FetchResult.failure e =>
        ({ st with messages := optimistic.dropLast,
                   isLoading := false, error := some e }, some req)

/-- `sendMessage` as it actually runs: the callback is memoized by
`useCallback` with dependency array `[API_URL]`, and `API_URL` never
changes, so the closure created on the first render — when
`isLoading === false` — is reused for the component's lifetime. The
captured `isLoading` is therefore permanently `false` (only `messages` and
`isInitialized` were given refs), and the deployed behaviour on hook state
`st` is the body run with the captured flag cleared; a blank-input
rejection touches no state at all, so `st` (including its live
`isLoading`) passes through unchanged. -/
def sendMessageDeployed (redFlag : RedFlag) (applicationData : ApplicationData)
    (st : ChatState) (userMessage : String) (now : Nat)
    (outcome : FetchResult) : ChatState × Option ChatMessagePayload :=
  if jsTrim userMessage == "" then (st, none)
  else
    sendMessage redFlag applicationData { st with isLoading := false }
      userMessage now outcome

/-- `reset` from `useChat.ts`: clears transcript, flags and error. -/
def reset (_st : ChatState) : ChatState := initialChatState

/-- Modelled from the spec: `restoreMessages` is part of the hook's return
interface consumed by `ChatBot.tsx` (which calls it when switching back to a
flag with a saved conversation), but its implementation is not among the
sources; per the spec it "replaces the transcript with a previously saved
one for this RedFlag's rule identifier and marks the engine as already
initialized". -/
def restoreMessages (st : ChatState) (history : List ChatMessage) : ChatState :=
  { st with messages := history, isInitialized := true }

/-- State of a pre-screening chat surface: `messages` and `isLoading`
(`PreScreeningChatModal.tsx` and `PreScreeningSection.tsx`). -/
structure PreScreenState where
  messages : List ChatMessage
  isLoading : Bool
  deriving DecidableEq, Repr

/-- Request payload of `POST /api/prescreening/chat`: the text being sent
plus the `conversationHistory` the component state held when the handler
ran (the render-scope `messages`, which does not yet contain the message
being sent). -/
structure PreScreenPayload where
  message : String
  conversationHistory : List ChatMessage
  deriving DecidableEq, Repr

/-- JavaScript `Array.prototype.join`: empty array gives `""`, otherwise the
first element followed by `sep ++ element` for each later element. -/
def jsJoin (sep : String) : List String → String
  | [] => ""
  | s :: rest => rest.foldl (fun acc x => acc ++ sep ++ x) s

/-- `messages.filter(m => m.role === "user").map(m => m.content)`, shared by
both pre-screening explanation extractors. -/
def userContents (messages : List ChatMessage) : List String :=
  (messages.filter (fun m => m.role == Role.user)).map (fun m => m.content)

namespace PreScreeningChatModal

/-- The synthetic assistant message appended by the modal's `catch` block. -/
def errorReply (now : Nat) : ChatMessage :=
  { role := Role.assistant,
    content := "Sorry, I encountered an error. Please try again or close this chat and submit your form.",
    timestamp := now }

/-- `handleSend` from `PreScreeningChatModal.tsx`: guarded no-op on blank
input or while loading; otherwise appends the user message, posts it with
the pre-send history, and appends either the assistant reply or the
synthetic error reply. -/
def handleSend (st : PreScreenState) (inputValue : String) (now : Nat)
    (outcome : FetchResult) : PreScreenState × Option PreScreenPayload :=
  if (jsTrim inputValue == "") || st.isLoading then (st, none)
  else
    let userMessage := mkUserMessage inputValue now
    let req : PreScreenPayload :=
      { message := inputValue, conversationHistory := st.messages }
    match outcome with
    | FetchResult.success r =>
        ({ messages := st.messages ++ [userMessage, mkAssistantMessage r],
           isLoading := false }, some req)
    | FetchResult.failure _ =>
        ({ messages := st.messages ++ [userMessage, errorReply now],
           isLoading := false }, some req)

/-- `handleComplete` from `PreScreeningChatModal.tsx`: space-joins the user
turns into the explanation and hands back the transcript as the history. -/
def handleComplete (messages : List ChatMessage) : String × List ChatMessage :=
  (jsJoin " " (userContents messages), messages)

end PreScreeningChatModal

namespace PreScreeningSection

/-- The synthetic assistant message appended by the section's `catch` block. -/
def errorReply (now : Nat) : ChatMessage :=
  { role := Role.assistant,
    content := "Sorry, I encountered an error. Please try again.",
    timestamp := now }

/-- `handleSend` from `PreScreeningSection.tsx`: like the modal's handler,
but on success it additionally auto-saves via
`onChatComplete(userMessagesText, updatedMessages)`; the third component is
that emission (absent on guard rejection or failure). -/
def handleSend (st : PreScreenState) (inputValue : String) (now : Nat)
    (outcome : FetchResult) :
    PreScreenState × Option PreScreenPayload × Option (String × List ChatMessage) :=
  if (jsTrim inputValue == "") || st.isLoading then (st, none, none)
  else
    let userMessage := mkUserMessage inputValue now
    let req : PreScreenPayload :=
      { message := inputValue, conversationHistory := st.messages }
    match outcome with
    | FetchResult.success r =>
        let updatedMessages := st.messages ++ [userMessage, mkAssistantMessage r]
        ({ messages := updatedMessages, isLoading := false }, some req,
         some (jsJoin " " (userContents updatedMessages), updatedMessages))
    | FetchResult.failure _ =>
        ({ messages := st.messages ++ [userMessage, errorReply now],
           isLoading := false }, some req, none)

end PreScreeningSection

/-- Traffic-light status of a displayed validation rule (`MockForm.tsx`). -/
inductive RuleStatus where
  | pending
  | pass
  | fail
  deriving DecidableEq, Repr

/-- A displayed validation rule (`MockForm.tsx`). -/
structure Rule where
  id : String
  label : String
  status : RuleStatus
  debugInfo : Option DebugInfo
  redFlag : Option RedFlag
  deriving DecidableEq, Repr

/-- Response of `POST /api/validate` (`ValidationResponse` in
`types/index.ts`). -/
structure ValidationResponse where
  red_flags : List RedFlag
  deriving DecidableEq, Repr

namespace MockForm

/-- The per-rule body of the `setRules` updater in `MockForm.handleSubmit`:
find the first red flag whose `rule` equals the rule's id; mark `fail` and
attach its debug info and the flag itself if found, `pass` otherwise.
(`flag?.debugInfo || null` keeps the debug object when present: the payloads
are JSON objects, which are truthy.) -/
def updateRule (result : ValidationResponse) (rule : Rule) : Rule :=
  match result.red_flags.find? (fun f => f.rule == rule.id) with
  | some flag =>
      { rule with status := RuleStatus.fail, debugInfo := flag.debugInfo,
                  redFlag := some flag }
  | none =>
      { rule with status := RuleStatus.pass, debugInfo := none,
                  redFlag := none }

/-- The rule-status update performed by `handleSubmit` in `MockForm.tsx`
once the validation response arrives: map `updateRule` over the displayed
rules. -/
def handleSubmit (rules : List Rule) (result : ValidationResponse) :
    List Rule :=
  rules.map (updateRule result)

end MockForm

/-- One entry of `correctedFields`: `{oldValue, newValue}`; `oldValue` is
`none` when the field had no value before the correction. -/
structure Correction where
  oldValue : Option String
  newValue : String
  deriving DecidableEq, Repr

/-- Modelled from the spec: the `ApplicationSnapshot` of section 3 — live
field values plus the `justifications` and `correctedFields` audit maps — as
string-keyed association lists. The backend that holds it is not among the
sources. -/
structure ApplicationSnapshot where
  fields : List (String × String)
  justifications : List (String × String)
  correctedFields : List (String × Correction)
  deriving DecidableEq, Repr

/-- Insert-or-overwrite on a string-keyed association list (JavaScript
`obj[k] = v`): replaces the binding for `k` in place if present, otherwise
appends it. -/
def setA {α : Type} : List (String × α) → String → α → List (String × α)
  | [], k, v => [(k, v)]
  | (k', v') :: rest, k, v =>
      if k' = k then (k, v) :: rest else (k', v') :: setA rest k v

/-- Current live value of field `f` in the snapshot. -/
def getField (s : ApplicationSnapshot) (f : String) : Option String :=
  s.fields.lookup f

/-- Modelled from the spec: committing an `Update{field, value}` action
(section 4.4) — "commit to ApplicationSnapshot.correctedFields[field] =
{oldValue: current, newValue: value}; set field's live value to `value`".
The backend code that applies it is not among the sources. -/
def applyUpdate (s : ApplicationSnapshot) (f v : String) : ApplicationSnapshot :=
  { s with
    correctedFields := setA s.correctedFields f
      { oldValue := getField s f, newValue := v },
    fields := setA s.fields f v }

/-- Spec-side join, stated from the spec's wording "concatenates all user
turns (space-joined, in order)": empty list gives the empty string, a single
string is itself, otherwise head, a single space, and the join of the rest.
Used to compare the code's `join(" ")` against the specified explanation. -/
def spaceJoin : List String → String
  | [] => ""
  | [s] => s
  | s :: rest => s ++ " " ++ spaceJoin rest

/-- A sample red flag, shaped like the distance-check flag of the backend
README. -/
def rf0 : RedFlag :=
  { rule := "distance_check",
    message := "Home and work addresses are 685.5km apart",
    severity := none,
    affectedFields := ["currentAddress", "companyAddress"],
    debugInfo := some { payload := "distance_km 685.5" } }

/-- A sample application with the distance-check fields filled in. -/
def app0 : ApplicationData :=
  { firstName := none, lastName := none,
    currentAddress := some "Chiang Mai",
    employmentType := none, jobTitle := none, companyName := none,
    companyAddress := some "Bangkok", companyWebsite := none,
    monthlyIncome := none, sourceOfFunds := none, currentAssets := none,
    countryIncomeSources := none, preScreening := none }

/-- A hook state after a completed initialization: one assistant message,
idle, initialized. -/
def st1 : ChatState :=
  { messages := [{ role := Role.assistant,
                   content := "Could you explain the distance between your home and work addresses?",
                   timestamp := 0 }],
    isLoading := false, error := none, isInitialized := true }

/-- The state of `st1` while a request is in flight. -/
def stBusy : ChatState :=
  { messages := st1.messages, isLoading := true, error := none,
    isInitialized := true }

/-- A pre-screening state holding the fixed opening question. -/
def ps1 : PreScreenState :=
  { messages := [{ role := Role.assistant,
                   content := "Could you please explain your situation in more detail?",
                   timestamp := 0 }],
    isLoading := false }

/-- Scenario C transcript: the pre-screening question followed by the user
answer. -/
def scenarioC : List ChatMessage :=
  [{ role := Role.assistant,
     content := "Could you please explain your situation in more detail?",
     timestamp := 0 },
   { role := Role.user, content := "My uncle is a city council member",
     timestamp := 1 }]

/-- The displayed distance-check rule before validation. -/
def rule0 : Rule :=
  { id := "distance_check", label := "Address Distance Check",
    status := RuleStatus.pending, debugInfo := none, redFlag := none }

/-- A validation response flagging the distance check. -/
def resp0 : ValidationResponse := { red_flags := [rf0] }

/-- A snapshot whose `companyName` field holds a typo. -/
def snap0 : ApplicationSnapshot :=
  { fields := [("companyName", "SCB Bankk")], justifications := [],
    correctedFields := [] }

/-- Shifting a prefix out of the accumulator of the space-join fold. -/
theorem foldl_space_shift (t : List String) (a b : String) :
    t.foldl (fun acc x => acc ++ " " ++ x) (a ++ b) =
      a ++ t.foldl (fun acc x => acc ++ " " ++ x) b := by
  induction t generalizing b with
  | nil => rfl
  | cons x xs ih =>
      show xs.foldl _ (a ++ b ++ " " ++ x) = a ++ xs.foldl _ (b ++ " " ++ x)
      have h := ih (b ++ " " ++ x)
      simp only [String.append_assoc] at h ⊢
      exact h

/-- The JavaScript `join(" ")` agrees with the spec-side `spaceJoin`. -/
theorem jsJoin_space (l : List String) : jsJoin " " l = spaceJoin l := by
  match l with
  | [] => rfl
  | [s] => rfl
  | s :: b :: t =>
      show (b :: t).foldl (fun acc x => acc ++ " " ++ x) s
        = spaceJoin (s :: b :: t)
      have h2 := foldl_space_shift t (s ++ " ") b
      have h3 : jsJoin " " (b :: t) = spaceJoin (b :: t) := jsJoin_space (b :: t)
      have h4 : (b :: t).foldl (fun acc x => acc ++ " " ++ x) s
          = t.foldl (fun acc x => acc ++ " " ++ x) (s ++ " " ++ b) := rfl
      have h5 : spaceJoin (s :: b :: t) = s ++ " " ++ spaceJoin (b :: t) := rfl
      rw [h4, h2, h5, ← h3]
      rfl

/-- Looking up the key just written by `setA` yields the written value. -/
theorem lookup_setA_self {α : Type} (l : List (String × α)) (k : String)
    (v : α) : (setA l k v).lookup k = some v := by
  induction l with
  | nil => simp [setA, List.lookup]
  | cons p rest ih =>
      obtain ⟨k', v'⟩ := p
      by_cases h : k' = k
      · simp [setA, h, List.lookup]
      · have hne : (k == k') = false := by
          simp only [beq_eq_false_iff_ne, ne_eq]
          exact fun hh => h hh.symm
        simp [setA, h, List.lookup, hne, ih]

/-- Appending an assistant-role message does not change the extracted user
contents. -/
theorem userContents_append_assistant (l : List ChatMessage) (m : ChatMessage)
    (h : m.role = Role.assistant) :
    userContents (l ++ [m]) = userContents l := by
  have hfalse : (m.role == Role.user) = false := by
    rw [h]; rfl
  simp [userContents, List.filter_append, List.filter, hfalse]

/-- C1, counterexample: when the model call fails, the transcript does not
grow by one — `sendMessage` removes the optimistically appended user message
(`prev.slice(0, -1)`), so at this concrete input the length returns to its
pre-call value instead of exceeding it by one. -/
theorem sendMessage_failure_not_grow_one :
    ¬ ((sendMessage rf0 app0 st1 "I work fully remote" 5
          (FetchResult.failure "API error: 500")).1.messages.length
        = st1.messages.length + 1) := by decide

/-- C1, amended: a successfully completed turn appends exactly the user
message followed by one assistant message; on a failed model call the
optimistic user-message append is rolled back, so the transcript returns to
its pre-call contents, no assistant reply is appended, the initialization
flag does not advance, loading clears and the error is surfaced, so the
message can be resent. -/
theorem sendMessage_turn_transcript (rf : RedFlag) (app : ApplicationData)
    (st : ChatState) (msg : String) (now : Nat)
    (h1 : (jsTrim msg == "") = false) (h2 : st.isLoading = false) :
    (∀ r, (sendMessage rf app st msg now (FetchResult.success r)).1.messages
        = st.messages ++ [mkUserMessage msg now, mkAssistantMessage r])
    ∧ (∀ e, (sendMessage rf app st msg now (FetchResult.failure e)).1.messages
          = st.messages
        ∧ (sendMessage rf app st msg now
            (FetchResult.failure e)).1.isInitialized = st.isInitialized
        ∧ (sendMessage rf app st msg now
            (FetchResult.failure e)).1.isLoading = false
        ∧ (sendMessage rf app st msg now
            (FetchResult.failure e)).1.error = some e) := by
  constructor
  · intro r
    simp [sendMessage, h1, h2]
  · intro e
    refine ⟨?_, ?_, ?_, ?_⟩ <;>
      simp [sendMessage, h1, h2, List.dropLast_concat]

/-- C1, witness: the amended theorem applied at a concrete failing turn. -/
theorem sendMessage_turn_transcript_witness :
    (jsTrim "I work fully remote" == "") = false
    ∧ (sendMessage rf0 app0 st1 "I work fully remote" 5
        (FetchResult.failure "network error")).1.messages = st1.messages :=
  ⟨by decide,
   ((sendMessage_turn_transcript rf0 app0 st1 "I work fully remote" 5
      (by decide) rfl).2 "network error").1⟩

/-- C2: restoring a saved transcript makes the hook's transcript exactly the
saved one — same messages, same order — and marks the conversation as
already initialized. -/
theorem restoreMessages_exact (st : ChatState) (saved : List ChatMessage) :
    (restoreMessages st saved).messages = saved
    ∧ (restoreMessages st saved).isInitialized = true :=
  ⟨rfl, rfl⟩

/-- C3: from an uninitialized state, a failed initialization leaves the
transcript unchanged (in particular empty if it was empty) and the state
uninitialized; a successful initialization yields exactly one assistant
message and marks the state initialized; retrying after a failure produces
exactly one assistant message with no leftover duplicate; and once
initialized, `initializeChat` is a no-op that issues no request. -/
theorem initializeChat_retry_safe (rf : RedFlag) (app : ApplicationData)
    (st st₂ : ChatState) (o : FetchResult)
    (h : st.isInitialized = false) (h₂ : st₂.isInitialized = true) :
    (∀ e, (initializeChat rf app st (FetchResult.failure e)).1.messages
        = st.messages
      ∧ (initializeChat rf app st
          (FetchResult.failure e)).1.isInitialized = false)
    ∧ (∀ r, (initializeChat rf app st (FetchResult.success r)).1.messages
        = [mkAssistantMessage r]
      ∧ (initializeChat rf app st
          (FetchResult.success r)).1.isInitialized = true)
    ∧ (∀ e r, (initializeChat rf app
        (initializeChat rf app st (FetchResult.failure e)).1
        (FetchResult.success r)).1.messages = [mkAssistantMessage r])
    ∧ initializeChat rf app st₂ o = (st₂, none) := by
  refine ⟨fun e => ⟨?_, ?_⟩, fun r => ⟨?_, ?_⟩, fun e r => ?_, ?_⟩ <;>
    simp [initializeChat, h, h₂]

/-- C3, witness: a timed-out initialization retried successfully from the
empty initial state. -/
theorem initializeChat_retry_safe_witness :
    initialChatState.isInitialized = false
    ∧ (initializeChat rf0 app0
        (initializeChat rf0 app0 initialChatState
          (FetchResult.failure "timeout")).1
        (FetchResult.success
          { content := "Could you check the addresses?", timestamp := 3 })).1.messages
      = [mkAssistantMessage
          { content := "Could you check the addresses?", timestamp := 3 }] :=
  ⟨rfl,
   (initializeChat_retry_safe rf0 app0 initialChatState st1
      (FetchResult.failure "unused") rfl rfl).2.2.1 "timeout"
      { content := "Could you check the addresses?", timestamp := 3 }⟩

/-- C4: on the caller's completion signal, the returned explanation is the
space-join of all user-role message contents in order, the returned history
is the transcript unchanged, and on the Scenario C transcript the
explanation equals the single user answer with the transcript at exactly
two entries. -/
theorem handleComplete_explanation (messages : List ChatMessage) :
    (PreScreeningChatModal.handleComplete messages).1
      = spaceJoin (userContents messages)
    ∧ (PreScreeningChatModal.handleComplete messages).2 = messages
    ∧ (PreScreeningChatModal.handleComplete scenarioC).1
      = "My uncle is a city council member"
    ∧ scenarioC.length = 2 :=
  ⟨jsJoin_space (userContents messages), rfl, by decide, rfl⟩

/-- C5: the single-flight rejection does not happen in the running program.
The line-98 guard shows the intent, but the memoized closure's captured
`isLoading` is permanently `false`, so a `sendMessage` arriving while a
request is in flight (`stBusy`, loading set) is *not* a no-op: it issues a
second request carrying the transcript plus the new user message, and on
completion it has appended to the transcript — diverging from the claimed
rejected-as-no-op behaviour. -/
theorem sendMessage_inflight_not_rejected :
    stBusy.isLoading = true
    ∧ (sendMessageDeployed rf0 app0 stBusy "second message" 9
        (FetchResult.success { content := "ok", timestamp := 10 })).2
      = some { message := "second message", redFlag := rf0,
               applicationData := app0,
               conversationHistory :=
                 stBusy.messages ++ [mkUserMessage "second message" 9] }
    ∧ (sendMessageDeployed rf0 app0 stBusy "second message" 9
        (FetchResult.success { content := "ok", timestamp := 10 })).1.messages
      = stBusy.messages
        ++ [mkUserMessage "second message" 9,
            mkAssistantMessage { content := "ok", timestamp := 10 }]
    ∧ ¬ (sendMessageDeployed rf0 app0 stBusy "second message" 9
          (FetchResult.success { content := "ok", timestamp := 10 }))
        = (stBusy, none) := by
  refine ⟨rfl, ?_, ?_, ?_⟩ <;> decide

/-- C6: every accepted `sendMessage` call posts a payload whose
`conversationHistory` is exactly the pre-call transcript with the new user
message appended at the end, whatever the call's outcome. -/
theorem sendMessage_payload_full_history (rf : RedFlag)
    (app : ApplicationData) (st : ChatState) (msg : String) (now : Nat)
    (o : FetchResult) (h1 : (jsTrim msg == "") = false)
    (h2 : st.isLoading = false) :
    (sendMessage rf app st msg now o).2
      = some { message := msg, redFlag := rf, applicationData := app,
               conversationHistory := st.messages ++ [mkUserMessage msg now] } := by
  cases o <;> simp [sendMessage, h1, h2]

/-- C6, witness: the payload of a concrete accepted call carries the full
prior transcript plus the new user message. -/
theorem sendMessage_payload_full_history_witness :
    (jsTrim "I work fully remote" == "") = false
    ∧ (sendMessage rf0 app0 st1 "I work fully remote" 5
        (FetchResult.success { content := "Thanks.", timestamp := 6 })).2
      = some { message := "I work fully remote", redFlag := rf0,
               applicationData := app0,
               conversationHistory :=
                 st1.messages ++ [mkUserMessage "I work fully remote" 5] } :=
  ⟨by decide,
   sendMessage_payload_full_history rf0 app0 st1 "I work fully remote" 5
     (FetchResult.success { content := "Thanks.", timestamp := 6 })
     (by decide) rfl⟩

/-- C7: after a validation response, `handleSubmit` maps every displayed
rule through `updateRule`; a rule comes out `fail` exactly when some
returned red flag carries its id, in which case the found flag's debug info
(and the flag itself) is attached, and it comes out `pass` otherwise. -/
theorem handleSubmit_pass_fail (result : ValidationResponse)
    (rules : List Rule) (rule : Rule) :
    MockForm.handleSubmit rules result
      = rules.map (MockForm.updateRule result)
    ∧ ((MockForm.updateRule result rule).status = RuleStatus.fail
        ↔ ∃ f ∈ result.red_flags, f.rule = rule.id)
    ∧ (∀ f, result.red_flags.find? (fun g => g.rule == rule.id) = some f
        → (MockForm.updateRule result rule).debugInfo = f.debugInfo
          ∧ (MockForm.updateRule result rule).redFlag = some f)
    ∧ ((MockForm.updateRule result rule).status ≠ RuleStatus.fail
        → (MockForm.updateRule result rule).status = RuleStatus.pass) := by
  refine ⟨rfl, ?_, ?_, ?_⟩
  · cases hf : result.red_flags.find? (fun g => g.rule == rule.id) with
    | some f =>
        constructor
        · intro _
          have hbeq := @List.find?_some RedFlag
            (fun g => g.rule == rule.id) f result.red_flags hf
          exact ⟨f, List.mem_of_find?_eq_some hf, eq_of_beq hbeq⟩
        · intro _
          simp [MockForm.updateRule, hf]
    | none =>
        constructor
        · intro hst
          exfalso
          simp [MockForm.updateRule, hf] at hst
        · rintro ⟨f, hmem, heq⟩
          exact absurd (beq_iff_eq.mpr heq) (List.find?_eq_none.mp hf f hmem)
  · intro f hfind
    constructor <;> simp [MockForm.updateRule, hfind]
  · cases hf : result.red_flags.find? (fun g => g.rule == rule.id) with
    | some f => intro hne; exact absurd (by simp [MockForm.updateRule, hf]) hne
    | none => intro _; simp [MockForm.updateRule, hf]

/-- C7, witness: the flagged distance rule comes out `fail` with the flag's
debug info attached, via the theorem at a concrete response. -/
theorem handleSubmit_pass_fail_witness :
    (MockForm.updateRule resp0 rule0).status = RuleStatus.fail
    ∧ (MockForm.updateRule resp0 rule0).debugInfo = rf0.debugInfo :=
  ⟨(handleSubmit_pass_fail resp0 [rule0] rule0).2.1.mpr
      ⟨rf0, by simp [resp0], rfl⟩,
   ((handleSubmit_pass_fail resp0 [rule0] rule0).2.2.1 rf0 (by decide)).1⟩

/-- C8, counterexample: applying `Update{companyName, "SCB Bank"}` twice to
a snapshot whose `companyName` was "SCB Bankk" does not leave
`correctedFields[companyName].oldValue` at the value before the first
update — the second commit reads the already-corrected live value. -/
theorem applyUpdate_twice_not_first_old :
    ¬ (((applyUpdate (applyUpdate snap0 "companyName" "SCB Bank")
          "companyName" "SCB Bank").correctedFields).lookup "companyName"
        = some { oldValue := some "SCB Bankk", newValue := "SCB Bank" }) := by
  decide

/-- C8, amended: applying `Update{f, v}` twice in a row yields
`correctedFields[f] = {oldValue: v, newValue: v}` — the `oldValue` is the
live value immediately before the second commit, i.e. the first update's
`newValue`; the older correction entry is overwritten, not appended or
chained, and the live value of `f` is `v` after the first application
already. -/
theorem applyUpdate_twice (s : ApplicationSnapshot) (f v : String) :
    ((applyUpdate (applyUpdate s f v) f v).correctedFields).lookup f
      = some { oldValue := some v, newValue := v }
    ∧ getField (applyUpdate s f v) f = some v := by
  have hv : getField (applyUpdate s f v) f = some v := by
    simp only [getField, applyUpdate]
    exact lookup_setA_self s.fields f v
  refine ⟨?_, hv⟩
  have h1 : (applyUpdate (applyUpdate s f v) f v).correctedFields
      = setA (applyUpdate s f v).correctedFields f
          { oldValue := getField (applyUpdate s f v) f, newValue := v } := rfl
  rw [h1, hv]
  exact lookup_setA_self _ f _

/-- C9: at all three chat entry points, an input that trims to the empty
string is a no-op — the state (hence the transcript) is unchanged and no
request payload is produced. -/
theorem blank_input_noop (rf : RedFlag) (app : ApplicationData)
    (st : ChatState) (ps : PreScreenState) (msg : String) (now : Nat)
    (o : FetchResult) (h : jsTrim msg = "") :
    sendMessage rf app st msg now o = (st, none)
    ∧ PreScreeningChatModal.handleSend ps msg now o = (ps, none)
    ∧ PreScreeningSection.handleSend ps msg now o = (ps, none, none) := by
  have hb : (jsTrim msg == "") = true := by simp [h]
  refine ⟨?_, ?_, ?_⟩ <;>
    simp [sendMessage, PreScreeningChatModal.handleSend,
      PreScreeningSection.handleSend, hb]

/-- C9, witness: a whitespace-only input is rejected at a concrete state. -/
theorem blank_input_noop_witness :
    jsTrim "   " = ""
    ∧ sendMessage rf0 app0 st1 "   " 4 (FetchResult.failure "e")
        = (st1, none)
    ∧ PreScreeningChatModal.handleSend ps1 "   " 4 (FetchResult.failure "e")
        = (ps1, none) :=
  ⟨by decide,
   (blank_input_noop rf0 app0 st1 ps1 "   " 4 (FetchResult.failure "e")
      (by decide)).1,
   (blank_input_noop rf0 app0 st1 ps1 "   " 4 (FetchResult.failure "e")
      (by decide)).2.1⟩

/-- C10: in both pre-screening surfaces a failed request keeps the user's
message and appends a synthetic assistant-role error reply, so the
transcript grows by exactly two on failure as on success; the error reply is
part of the history `handleComplete` returns, yet — being assistant-role —
it contributes nothing to the space-joined explanation. -/
theorem prescreening_failure_grows_by_two (ps : PreScreenState)
    (msg : String) (now : Nat) (e : String) (r : ChatMessageResponseOk)
    (h1 : (jsTrim msg == "") = false) (h2 : ps.isLoading = false) :
    (PreScreeningChatModal.handleSend ps msg now
        (FetchResult.failure e)).1.messages
      = ps.messages
        ++ [mkUserMessage msg now, PreScreeningChatModal.errorReply now]
    ∧ (PreScreeningChatModal.handleSend ps msg now
        (FetchResult.failure e)).1.messages.length
      = ps.messages.length + 2
    ∧ (PreScreeningChatModal.handleSend ps msg now
        (FetchResult.success r)).1.messages.length
      = ps.messages.length + 2
    ∧ (PreScreeningChatModal.errorReply now).role = Role.assistant
    ∧ (PreScreeningChatModal.handleComplete
        (ps.messages
          ++ [mkUserMessage msg now, PreScreeningChatModal.errorReply now])).2
      = ps.messages
        ++ [mkUserMessage msg now, PreScreeningChatModal.errorReply now]
    ∧ (PreScreeningChatModal.handleComplete
        (ps.messages
          ++ [mkUserMessage msg now, PreScreeningChatModal.errorReply now])).1
      = (PreScreeningChatModal.handleComplete
          (ps.messages ++ [mkUserMessage msg now])).1
    ∧ (PreScreeningSection.handleSend ps msg now
        (FetchResult.failure e)).1.messages
      = ps.messages
        ++ [mkUserMessage msg now, PreScreeningSection.errorReply now] := by
  have hctx : userContents
      (ps.messages
        ++ [mkUserMessage msg now, PreScreeningChatModal.errorReply now])
      = userContents (ps.messages ++ [mkUserMessage msg now]) := by
    have hsplit : ps.messages
        ++ [mkUserMessage msg now, PreScreeningChatModal.errorReply now]
        = (ps.messages ++ [mkUserMessage msg now])
          ++ [PreScreeningChatModal.errorReply now] := by
      simp
    rw [hsplit]
    exact userContents_append_assistant _ _ rfl
  refine ⟨?_, ?_, ?_, rfl, rfl, ?_, ?_⟩
  · simp [PreScreeningChatModal.handleSend, h1, h2]
  · simp [PreScreeningChatModal.handleSend, h1, h2]
  · simp [PreScreeningChatModal.handleSend, h1, h2]
  · show jsJoin " " _ = jsJoin " " _
    rw [hctx]
  · simp [PreScreeningSection.handleSend, h1, h2]

/-- C10, witness: a concrete failed pre-screening send keeps the user
message and appends the assistant-role error reply. -/
theorem prescreening_failure_grows_by_two_witness :
    (jsTrim "My uncle is a city council member" == "") = false
    ∧ (PreScreeningChatModal.handleSend ps1
        "My uncle is a city council member" 2
        (FetchResult.failure "net")).1.messages
      = ps1.messages
        ++ [mkUserMessage "My uncle is a city council member" 2,
            PreScreeningChatModal.errorReply 2] :=
  ⟨by decide,
   (prescreening_failure_grows_by_two ps1
      "My uncle is a city council member" 2 "net"
      { content := "unused", timestamp := 0 } (by decide) rfl).1⟩

end ChatForm
